import Mathlib

/-!
# Verification of the Dropbox OAuth/PKCE engine of ynab4-client

Shallow embedding of the security-critical core of
src/src-tauri/src/lib.rs: PKCE challenge derivation, the process-wide
verifier slot, authorization-URL construction, the loopback callback
listener, the token-exchange client, and the desktop flow orchestrator.

Machine integers are modelled as Nat with explicit reduction mod 2^32
where the source relies on 32-bit wrap-around (inside SHA-256).
External effects (the HTTP transport, JSON parsing, socket accept) are
modelled as explicit parameters describing their outcome, so every
function of the source becomes a pure, executable Lean function.
-/

set_option maxRecDepth 20000

namespace Ynab4

/-! ## SHA-256 (FIPS 180-4), as used by the sha2 crate in
`generate_code_challenge` (lib.rs lines 113-118).  Words are Nat
reduced mod 2^32. -/

def w32 (n : Nat) : Nat := n % 4294967296

def rotr32 (b n : Nat) : Nat := w32 ((n >>> b) ||| (n <<< (32 - b)))

def shaCh (x y z : Nat) : Nat := w32 ((x &&& y) ^^^ ((x ^^^ 4294967295) &&& z))

def shaMaj (x y z : Nat) : Nat := w32 ((x &&& y) ^^^ (x &&& z) ^^^ (y &&& z))

def bSig0 (x : Nat) : Nat := rotr32 2 x ^^^ rotr32 13 x ^^^ rotr32 22 x

def bSig1 (x : Nat) : Nat := rotr32 6 x ^^^ rotr32 11 x ^^^ rotr32 25 x

def sSig0 (x : Nat) : Nat := rotr32 7 x ^^^ rotr32 18 x ^^^ (x >>> 3)

def sSig1 (x : Nat) : Nat := rotr32 17 x ^^^ rotr32 19 x ^^^ (x >>> 10)

/-- The 64 SHA-256 round constants. -/
def K256 : List Nat :=
  [1116352408, 1899447441, 3049323471, 3921009573, 961987163, 1508970993, 2453635748, 2870763221,
   3624381080, 310598401, 607225278, 1426881987, 1925078388, 2162078206, 2614888103, 3248222580,
   3835390401, 4022224774, 264347078, 604807628, 770255983, 1249150122, 1555081692, 1996064986,
   2554220882, 2821834349, 2952996808, 3210313671, 3336571891, 3584528711, 113926993, 338241895,
   666307205, 773529912, 1294757372, 1396182291, 1695183700, 1986661051, 2177026350, 2456956037,
   2730485921, 2820302411, 3259730800, 3345764771, 3516065817, 3600352804, 4094571909, 275423344,
   430227734, 506948616, 659060556, 883997877, 958139571, 1322822218, 1537002063, 1747873779,
   1955562222, 2024104815, 2227730452, 2361852424, 2428436474, 2756734187, 3204031479, 3329325298]

/-- The eight 32-bit working variables of the compression function. -/
structure SHAState where
  a : Nat
  b : Nat
  c : Nat
  d : Nat
  e : Nat
  f : Nat
  g : Nat
  h : Nat
deriving DecidableEq

/-- SHA-256 initial hash value. -/
def H0sha : SHAState :=
  ⟨1779033703, 3144134277, 1013904242, 2773480762,
   1359893119, 2600822924, 528734635, 1541459225⟩

/-- One round of the SHA-256 compression function. -/
def shaRound (st : SHAState) (kt wt : Nat) : SHAState :=
  let t1 := w32 (st.h + bSig1 st.e + shaCh st.e st.f st.g + kt + wt)
  let t2 := w32 (bSig0 st.a + shaMaj st.a st.b st.c)
  ⟨w32 (t1 + t2), st.a, st.b, st.c, w32 (st.d + t1), st.e, st.f, st.g⟩

/-- Group a block of bytes into big-endian 32-bit words. -/
def toWords32 : List Nat → List Nat
  | a :: b :: c :: d :: rest => (a * 16777216 + b * 65536 + c * 256 + d) :: toWords32 rest
  | _ => []

/-- Extend the 16-word message schedule by the given number of words. -/
def shaExtend : Nat → List Nat → List Nat
  | 0, w => w
  | fuel + 1, w =>
    let t := w.length
    let wt := w32 (sSig1 (w.getD (t - 2) 0) + w.getD (t - 7) 0 +
                   sSig0 (w.getD (t - 15) 0) + w.getD (t - 16) 0)
    shaExtend fuel (w ++ [wt])

/-- Compress one 64-byte block into the running hash state. -/
def shaCompress (hs : SHAState) (block : List Nat) : SHAState :=
  let w := shaExtend 48 (toWords32 block)
  let s := (K256.zip w).foldl (fun st p => shaRound st p.1 p.2) hs
  ⟨w32 (hs.a + s.a), w32 (hs.b + s.b), w32 (hs.c + s.c), w32 (hs.d + s.d),
   w32 (hs.e + s.e), w32 (hs.f + s.f), w32 (hs.g + s.g), w32 (hs.h + s.h)⟩

/-- Big-endian 8-byte encoding of a 64-bit value. -/
def be64 (n : Nat) : List Nat :=
  [n / 2 ^ 56 % 256, n / 2 ^ 48 % 256, n / 2 ^ 40 % 256, n / 2 ^ 32 % 256,
   n / 2 ^ 24 % 256, n / 2 ^ 16 % 256, n / 2 ^ 8 % 256, n % 256]

/-- SHA-256 padding: a 128 byte, zeros to 56 mod 64, then the bit length. -/
def shaPad (msg : List Nat) : List Nat :=
  let L := msg.length
  let zeros := (119 - L % 64) % 64
  msg ++ [128] ++ List.replicate zeros 0 ++ be64 (8 * L)

/-- Split into 64-byte blocks (fuel-driven so that it reduces by rfl). -/
def chunks64F : Nat → List Nat → List (List Nat)
  | _, [] => []
  | 0, _ => []
  | fuel + 1, l => l.take 64 :: chunks64F fuel (l.drop 64)

def chunks64 (l : List Nat) : List (List Nat) := chunks64F l.length l

/-- Big-endian serialization of the final state, 32 bytes. -/
def word32Bytes (n : Nat) : List Nat :=
  [n / 16777216 % 256, n / 65536 % 256, n / 256 % 256, n % 256]

def shaDigestBytes (s : SHAState) : List Nat :=
  word32Bytes s.a ++ word32Bytes s.b ++ word32Bytes s.c ++ word32Bytes s.d ++
  word32Bytes s.e ++ word32Bytes s.f ++ word32Bytes s.g ++ word32Bytes s.h

/-- SHA-256 of a byte sequence (bytes are Nat values below 256). -/
def sha256Bytes (msg : List Nat) : List Nat :=
  shaDigestBytes ((chunks64 (shaPad msg)).foldl shaCompress H0sha)

/-! ## Base64url without padding (RFC 4648 section 5), as used by the
base64 crate engine URL_SAFE_NO_PAD in `generate_code_challenge`. -/

def b64Char (n : Nat) : Char :=
  if n < 26 then Char.ofNat (65 + n)
  else if n < 52 then Char.ofNat (97 + (n - 26))
  else if n < 62 then Char.ofNat (48 + (n - 52))
  else if n = 62 then Char.ofNat 45
  else Char.ofNat 95

def b64urlEncode : List Nat → List Char
  | [] => []
  | [a] => [b64Char (a / 4), b64Char (a % 4 * 16)]
  | [a, b] => [b64Char (a / 4), b64Char (a % 4 * 16 + b / 16), b64Char (b % 16 * 4)]
  | a :: b :: c :: rest =>
    b64Char (a / 4) :: b64Char (a % 4 * 16 + b / 16) ::
    b64Char (b % 16 * 4 + c / 64) :: b64Char (c % 64) :: b64urlEncode rest

/-- UTF-8 encoding of one character, as Nat byte values. -/
def utf8BytesOfChar (c : Char) : List Nat :=
  let n := c.toNat
  if n < 128 then [n]
  else if n < 2048 then [192 + n / 64, 128 + n % 64]
  else if n < 65536 then [224 + n / 4096, 128 + n / 64 % 64, 128 + n % 64]
  else [240 + n / 262144, 128 + n / 4096 % 64, 128 + n / 64 % 64, 128 + n % 64]

/-- UTF-8 bytes of a string, as Nat values. -/
def strBytes (s : String) : List Nat :=
  s.data.foldr (fun c acc => utf8BytesOfChar c ++ acc) []

/-- Embedding of `generate_code_challenge` (lib.rs lines 113-118):
SHA-256 of the verifier bytes, base64url encoded without padding. -/
def generate_code_challenge (verifier : String) : String :=
  String.mk (b64urlEncode (sha256Bytes (strBytes verifier)))

/-! ## Percent-encoding, as performed by the urlencoding crate on the
redirect URI in dropbox_get_auth_url and dropbox_oauth_flow: every
byte except ASCII alphanumerics and hyphen, underscore, period, tilde
becomes a percent sign followed by two uppercase hex digits. -/

def urlUnreservedByte (b : Nat) : Bool :=
  (65 ≤ b && b ≤ 90) || (97 ≤ b && b ≤ 122) || (48 ≤ b && b ≤ 57) ||
  b == 45 || b == 95 || b == 46 || b == 126

def hexUpper (n : Nat) : Char :=
  if n < 10 then Char.ofNat (48 + n) else Char.ofNat (55 + n)

def urlencode (s : String) : String :=
  String.mk ((strBytes s).foldr
    (fun b acc =>
      if urlUnreservedByte b then Char.ofNat b :: acc
      else '%' :: hexUpper (b / 16) :: hexUpper (b % 16) :: acc) [])

/-- The string needle occurs contiguously inside hay. -/
def containsStr (hay needle : String) : Prop :=
  List.IsInfix needle.data hay.data

instance (hay needle : String) : Decidable (containsStr hay needle) := by
  unfold containsStr
  infer_instance

/-! ## Authorization URL construction. -/

/-- Embedding of the authorize-URL format string shared by
dropbox_start_auth (lines 138-148), dropbox_get_auth_url
(lines 305-318) and dropbox_oauth_flow (lines 391-404): placeholders
are client_id, redirect_uri, challenge, state in that order, joined
with no whitespace (the Rust source uses backslash line continuations
inside the format literal). -/
def authorizeUrlFormat (client_id redirect_uri challenge state : String) : String :=
  "https://www.dropbox.com/oauth2/authorize?client_id=" ++ client_id ++
  "&redirect_uri=" ++ redirect_uri ++
  "&response_type=code&code_challenge=" ++ challenge ++
  "&code_challenge_method=S256&token_access_type=offline&state=" ++ state

structure DropboxAuthUrl where
  url : String
  state : String
deriving DecidableEq

/-- The verifier-store write performed by both auth starters:
unconditional overwrite of the single slot CODE_VERIFIER (line 12).
The lock-poisoning branch of the source silently skips the write; the
model is single-threaded and the lock always succeeds. -/
def verifierStore_set (verifier : String) (_slot : Option String) : Option String :=
  some verifier

/-- Embedding of dropbox_start_auth (lines 128-151).  The generated
verifier and state are passed as parameters standing for the values
the random generator produced; the CODE_VERIFIER slot is threaded
explicitly.  The caller-supplied redirect_uri is inserted into the URL
verbatim. -/
def dropbox_start_auth (verifier state client_id redirect_uri : String)
    (slot : Option String) : DropboxAuthUrl × Option String :=
  let challenge := generate_code_challenge verifier
  (⟨authorizeUrlFormat client_id redirect_uri challenge state, state⟩,
   verifierStore_set verifier slot)

def ANDROID_REDIRECT_URI : String := "ynab4viewer://oauth/callback"

/-- Embedding of dropbox_get_auth_url (lines 295-321): same format
string, with the fixed Android redirect URI percent-encoded.  The
source wraps the value in Ok; it never fails. -/
def dropbox_get_auth_url (verifier state client_id : String)
    (slot : Option String) : DropboxAuthUrl × Option String :=
  let challenge := generate_code_challenge verifier
  (⟨authorizeUrlFormat client_id (urlencode ANDROID_REDIRECT_URI) challenge state,
    state⟩,
   verifierStore_set verifier slot)

deriving instance DecidableEq for Except

structure DropboxTokenResponse where
  access_token : String
  token_type : String
  expires_in : Option Nat
  refresh_token : Option String
  scope : Option String
  uid : Option String
  account_id : Option String
deriving DecidableEq

structure DropboxErrorResponse where
  error : String
  error_description : Option String
deriving DecidableEq

/-- Rendering of the Rust Debug formatting of an optional string, as
interpolated into the non-2xx error message; escape sequences inside
the carried string are not modelled. -/
def debugOptString : Option String → String
  | none => "None"
  | some s => "Some(\"" ++ s ++ "\")"

/-- Outcome of the outbound POST to the token endpoint: transport
failure on send, failure while reading the body, or a response with
its success flag (status.is_success) and body text. -/
inductive HttpOutcome where
  | sendErr (e : String)
  | readErr (e : String)
  | respond (success : Bool) (body : String)

/-- The read both exchange commands perform on CODE_VERIFIER
(lines 178-181 and 330-333): the stored value is cloned and the slot
is left exactly as it was; with an empty slot the command fails with
the ok_or message.  The lock-poisoning branch is not modelled (the
model is single-threaded, the lock always succeeds). -/
def exchangeVerifierRead (slot : Option String) :
    Except String String × Option String :=
  (match slot with
   | some v => Except.ok v
   | none => Except.error "No code verifier found - start auth first",
   slot)

/-- Modelled from the spec (section 4.2): the take operation the spec
ascribes to the verifier store, which atomically reads and clears the
stored value.  Stated from the words of the spec, for comparison with
exchangeVerifierRead. -/
def specTake (slot : Option String) : Option String × Option String :=
  (slot, none)

/-- Result of one exchange command: the returned value, the
CODE_VERIFIER slot afterwards, and the form submitted to the token
endpoint (none when the command returned before issuing any HTTP
request). -/
structure ExchangeOutcome where
  result : Except String DropboxTokenResponse
  slot : Option String
  request : Option (List (String × String))
deriving DecidableEq

/-- Embedding of dropbox_exchange_code (lines 171-219).  parseTok and
parseErr stand for serde_json deserialization of the success and
error body shapes; net stands for the transport outcome.  The slot is
cleared exactly on the success-and-parse-ok path. -/
def dropbox_exchange_code (client_id code redirect_uri : String)
    (net : HttpOutcome)
    (parseTok : String → Except String DropboxTokenResponse)
    (parseErr : String → Option DropboxErrorResponse)
    (slot : Option String) : ExchangeOutcome :=
  match exchangeVerifierRead slot with
  | (Except.error e, slot1) => ⟨Except.error e, slot1, none⟩
  | (Except.ok verifier, slot1) =>
    let form := [("code", code), ("grant_type", "authorization_code"),
                 ("client_id", client_id), ("redirect_uri", redirect_uri),
                 ("code_verifier", verifier)]
    match net with
    | HttpOutcome.sendErr e => ⟨Except.error ("HTTP error: " ++ e), slot1, some form⟩
    | HttpOutcome.readErr e => ⟨Except.error ("Read error: " ++ e), slot1, some form⟩
    | HttpOutcome.respond success body =>
      if success then
        match parseTok body with
        | Except.ok tok => ⟨Except.ok tok, none, some form⟩
        | Except.error e =>
          ⟨Except.error ("Parse error: " ++ e ++ " - body: " ++ body), slot1, some form⟩
      else
        let err := (parseErr body).getD ⟨"unknown", some body⟩
        ⟨Except.error (err.error ++ ": " ++ debugOptString err.error_description),
         slot1, some form⟩

/-- Embedding of dropbox_exchange_code_android (lines 324-374): the
source duplicates the body of dropbox_exchange_code verbatim (plus
logging) with the fixed Android deep-link redirect URI in the form. -/
def dropbox_exchange_code_android (client_id code : String)
    (net : HttpOutcome)
    (parseTok : String → Except String DropboxTokenResponse)
    (parseErr : String → Option DropboxErrorResponse)
    (slot : Option String) : ExchangeOutcome :=
  dropbox_exchange_code client_id code ANDROID_REDIRECT_URI net parseTok parseErr slot

/-! ## Desktop flow orchestrator (lines 378-477). -/

def OAUTH_CALLBACK_PORT : Nat := 8742

/-- Environment of one run of the desktop flow: outcome of the
listener bind, of the browser spawn, of the race between the callback
wait and the 5-minute timeout (none is a timeout), and of the token
exchange request. -/
structure FlowEnv where
  bindResult : Option String
  browserResult : Option String
  callbackResult : Option (Except String String)
  net : HttpOutcome
  parseTok : String → Except String DropboxTokenResponse
  parseErr : String → Option DropboxErrorResponse

/-- Embedding of dropbox_oauth_flow (lines 378-477), desktop variant.
The generated verifier and state are parameters standing for the
random draws.  The CODE_VERIFIER slot is threaded explicitly to
expose the effect of the flow on it: the source never reads or writes
the static, so the slot passes through every branch unchanged, and the
token exchange at the end uses the local verifier variable. -/
def dropbox_oauth_flow (env : FlowEnv) (verifier state client_id : String)
    (slot : Option String) : Except String DropboxTokenResponse × Option String :=
  let redirect_uri := "http://localhost:" ++ toString OAUTH_CALLBACK_PORT ++ "/callback"
  let challenge := generate_code_challenge verifier
  let _auth_url := authorizeUrlFormat client_id (urlencode redirect_uri) challenge state
  match env.bindResult with
  | some e => (Except.error ("Failed to start callback server: " ++ e), slot)
  | none =>
    match env.browserResult with
    | some e => (Except.error ("Failed to open browser: " ++ e), slot)
    | none =>
      match env.callbackResult with
      | none =>
        (Except.error "OAuth timeout - no response received within 5 minutes", slot)
      | some (Except.error e) =>
        (Except.error ("OAuth callback error: " ++ e), slot)
      | some (Except.ok code) =>
        let _form := [("code", code), ("grant_type", "authorization_code"),
                      ("client_id", client_id), ("redirect_uri", redirect_uri),
                      ("code_verifier", verifier)]
        match env.net with
        | HttpOutcome.sendErr e =>
          (Except.error ("Token exchange HTTP error: " ++ e), slot)
        | HttpOutcome.readErr e => (Except.error ("Read error: " ++ e), slot)
        | HttpOutcome.respond success body =>
          if success then
            match env.parseTok body with
            | Except.ok tok => (Except.ok tok, slot)
            | Except.error e =>
              (Except.error ("Parse error: " ++ e ++ " - body: " ++ body), slot)
          else
            let err := (env.parseErr body).getD ⟨"unknown", some body⟩
            (Except.error (err.error ++ ": " ++ debugOptString err.error_description),
             slot)

/-! ## Callback listener (lines 488-589). -/

def takeUntilNl : List Char → List Char
  | [] => []
  | x :: xs => if x = '\n' then [] else x :: takeUntilNl xs

def stripTrailingCr (l : List Char) : List Char :=
  match l.reverse with
  | '\r' :: rest => rest.reverse
  | _ => l

/-- First line of the request, as Rust lines().next(): up to the first
newline, with one trailing carriage return stripped; none for the
empty request. -/
def firstLineOpt (s : String) : Option String :=
  match s.data with
  | [] => none
  | l => some (String.mk (stripTrailingCr (takeUntilNl l)))

/-- Index of the first occurrence of a character. -/
def charIdx (c : Char) : List Char → Option Nat
  | [] => none
  | x :: xs => if x = c then some 0 else (charIdx c xs).map (· + 1)

def startsList : List Char → List Char → Bool
  | [], _ => true
  | _ :: _, [] => false
  | a :: as, b :: bs => a == b && startsList as bs

/-- Index of the first occurrence of a sublist. -/
def findSubIdx (needle : List Char) : List Char → Option Nat
  | [] => if startsList needle [] then some 0 else none
  | x :: xs =>
    if startsList needle (x :: xs) then some 0
    else (findSubIdx needle xs).map (· + 1)

/-- The query substring of the request line (lines 506-508): from
after the first question mark up to the first occurrence of the
marker space-HTTP, or the end of the line when the marker is missing.
Indices are character positions; the source uses byte positions,
which agree on ASCII request lines.  A question mark after the marker
makes the source slice panic; here the result is the empty query. -/
def extractQuery (line : String) : Option String :=
  match charIdx '?' line.data with
  | none => none
  | some qs =>
    let qe := (findSubIdx (" HTTP" : String).data line.data).getD line.data.length
    some (String.mk ((line.data.drop (qs + 1)).take (qe - (qs + 1))))

/-- Split at every occurrence of a separator character, as Rust split:
always at least one (possibly empty) piece. -/
def splitChar (c : Char) : List Char → List (List Char)
  | [] => [[]]
  | x :: xs =>
    if x = c then [] :: splitChar c xs
    else
      match splitChar c xs with
      | [] => [[x]]
      | p :: ps => (x :: p) :: ps

/-- Rust split_once at the first occurrence of a character: the part
before it and the part after it; none when the character is absent. -/
def splitOnceChar (c : Char) : List Char → Option (List Char × List Char)
  | [] => none
  | x :: xs =>
    if x = c then some ([], xs)
    else (splitOnceChar c xs).map (fun p => (x :: p.1, p.2))

/-- Rust split_once on the equals sign, over strings. -/
def splitOnceEq (s : String) : Option (String × String) :=
  (splitOnceChar '=' s.data).map (fun p => (String.mk p.1, String.mk p.2))

/-- The parameter scan of lines 510-523: fold over the
ampersand-separated parameters, recording the latest value of code,
state and error; parameters without an equals sign and other keys are
ignored; values are not percent-decoded. -/
def parseQuery (query : String) :
    Option String × Option String × Option String :=
  ((splitChar '&' query.data).map String.mk).foldl
    (fun acc param =>
      match splitOnceEq param with
      | some (k, v) =>
        if k = "code" then (some v, acc.2.1, acc.2.2)
        else if k = "state" then (acc.1, some v, acc.2.2)
        else if k = "error" then (acc.1, acc.2.1, some v)
        else acc
      | none => acc)
    (none, none, none)

/-- The request-recognition pipeline of one accepted connection: the
parsed (code, state, error) triple when the first line starts with
GET /callback and carries a query; none otherwise (which the listener
answers with 404 and keeps waiting). -/
def requestParams (request : String) :
    Option (Option String × Option String × Option String) :=
  match firstLineOpt request with
  | none => none
  | some line =>
    if startsList ("GET /callback" : String).data line.data then
      match extractQuery line with
      | some q => some (parseQuery q)
      | none => none
    else none

/-- Byte length of a string, as Rust len() on the interpolated page. -/
def utf8Len (s : String) : Nat := (strBytes s).length

def errorHtmlPre : String :=
  "<!DOCTYPE html>\n<html><head><title>Error</title><style>\nbody \x7b font-family: -apple-system, BlinkMacSystemFont, sans-serif; display: flex; \njustify-content: center; align-items: center; height: 100vh; margin: 0; \nbackground: linear-gradient(135deg, #1a1a2e 0%, #16213e 100%); color: white; \x7d\n.container \x7b text-align: center; padding: 2rem; \x7d\nh1 \x7b color: #ff6b6b; \x7d\n</style></head><body>\n<div class=\"container\">\n<h1>❌ Error de Autorización</h1>\n<p>"

def errorHtmlPost : String :=
  "</p>\n<p>Puedes cerrar esta ventana.</p>\n</div></body></html>"

/-- The provider-error page of lines 527-539, with the error string
interpolated. -/
def errorHtml (err : String) : String := errorHtmlPre ++ err ++ errorHtmlPost

/-- The success page of lines 558-571. -/
def successHtml : String :=
  "<!DOCTYPE html>\n<html><head><title>¡Conectado!</title><style>\nbody \x7b font-family: -apple-system, BlinkMacSystemFont, sans-serif; display: flex; \njustify-content: center; align-items: center; height: 100vh; margin: 0; \nbackground: linear-gradient(135deg, #1a1a2e 0%, #16213e 100%); color: white; \x7d\n.container \x7b text-align: center; padding: 2rem; \x7d\nh1 \x7b color: #4ade80; \x7d\n.check \x7b font-size: 4rem; margin-bottom: 1rem; \x7d\n</style></head><body>\n<div class=\"container\">\n<div class=\"check\">✓</div>\n<h1>¡Conectado a Dropbox!</h1>\n<p>Puedes cerrar esta ventana y volver a la aplicación.</p>\n</div></body></html>"

/-- The 200 response wrapper of lines 541-544 and 573-576. -/
def httpHtmlResponse (html : String) : String :=
  "HTTP/1.1 200 OK\r\nContent-Type: text/html; charset=utf-8\r\nContent-Length: " ++
  toString (utf8Len html) ++ "\r\nConnection: close\r\n\r\n" ++ html

/-- The 404 fallthrough response of line 586. -/
def notFoundResponse : String :=
  "HTTP/1.1 404 Not Found\r\nContent-Length: 0\r\nConnection: close\r\n\r\n"

/-- What one loop iteration of wait_for_oauth_callback does with an
accepted connection: terminate with a result after writing a response,
or go back to accept the next connection, either after writing the 404
fallthrough or silently (the state-mismatch continue). -/
inductive CallbackStep where
  | done (response : String) (result : Except String String)
  | again (response : Option String)
deriving DecidableEq

def stateMismatch (state : Option String) (expected_state : String) : Bool :=
  match state with
  | some s => s != expected_state
  | none => false

/-- Embedding of the body of the accept loop (lines 503-587): error
check first, then the state check (continue on mismatch), then the
code check; everything else falls through to the 404 response. -/
def processConnection (expected_state request : String) : CallbackStep :=
  match requestParams request with
  | none => CallbackStep.again (some notFoundResponse)
  | some (code, state, er) =>
    match er with
    | some err =>
      CallbackStep.done (httpHtmlResponse (errorHtml err))
        (Except.error ("OAuth error: " ++ err))
    | none =>
      if stateMismatch state expected_state then CallbackStep.again none
      else
        match code with
        | some c => CallbackStep.done (httpHtmlResponse successHtml) (Except.ok c)
        | none => CallbackStep.again (some notFoundResponse)

/-- One incoming connection: a request string, or an accept/read
failure carrying the already formatted error message. -/
inductive Conn where
  | connErr (msg : String)
  | req (request : String)

/-- Embedding of wait_for_oauth_callback (lines 488-589) over the
stream of incoming connections: processes them strictly in order; none
means the stream was exhausted with the listener still waiting. -/
def wait_for_oauth_callback (expected_state : String) :
    List Conn → Option (Except String String)
  | [] => none
  | Conn.connErr e :: _ => some (Except.error e)
  | Conn.req r :: rest =>
    match processConnection expected_state r with
    | CallbackStep.done _ res => some res
    | CallbackStep.again _ => wait_for_oauth_callback expected_state rest

/-- A concrete token response used by counterexamples and witnesses. -/
def sampleToken : DropboxTokenResponse :=
  ⟨"x", "bearer", none, none, none, none, none⟩

/-! ## Theorems. -/

/-- FIPS 180-4 known-answer test: the digest of the three bytes "abc". -/
theorem sha256_kat_abc :
    sha256Bytes (strBytes "abc") =
      [186, 120, 22, 191, 143, 1, 207, 234,
       65, 65, 64, 222, 93, 174, 34, 35,
       176, 3, 97, 163, 150, 23, 122, 156,
       180, 16, 255, 97, 242, 0, 21, 173] := by decide

/-- RFC 7636 appendix B known-answer test: the example verifier maps to
the example S256 challenge. -/
theorem generate_code_challenge_rfc7636 :
    generate_code_challenge "dBjftJeZ4CVP-mB92K27uhbUJU1p1r_wW1gFWFOEjXk" =
      "E9Melhoa2OwvFrEMTJguCHaoeK1t8URWbuGJSstw-cM" := by decide

/-- Grounding test: the desktop loopback redirect URI percent-encodes
exactly as the urlencoding crate renders it. -/
theorem urlencode_loopback :
    urlencode "http://localhost:8742/callback" =
      "http%3A%2F%2Flocalhost%3A8742%2Fcallback" := by decide

/-! ## Output lengths of the challenge pipeline. -/

theorem b64urlEncode_length :
    ∀ l : List Nat, (b64urlEncode l).length =
      4 * (l.length / 3) + (if l.length % 3 = 0 then 0 else l.length % 3 + 1)
  | [] => by simp [b64urlEncode]
  | [a] => by simp [b64urlEncode]
  | [a, b] => by simp [b64urlEncode]
  | a :: b :: c :: rest => by
    have ih := b64urlEncode_length rest
    simp only [b64urlEncode, List.length_cons]
    have e2 : rest.length + 1 + 1 + 1 = rest.length + 3 := rfl
    rw [e2, Nat.add_mod_right, Nat.add_div_right _ (by norm_num), ih]
    by_cases h : rest.length % 3 = 0 <;> simp [h] <;> omega

theorem sha256Bytes_length (msg : List Nat) : (sha256Bytes msg).length = 32 := by
  simp [sha256Bytes, shaDigestBytes, word32Bytes]

/-- Every challenge is 43 characters: base64url without padding of a
32-byte digest. -/
theorem generate_code_challenge_length (v : String) :
    (generate_code_challenge v).length = 43 := by
  show (b64urlEncode (sha256Bytes (strBytes v))).length = 43
  rw [b64urlEncode_length, sha256Bytes_length]
  decide

/-! ## An occurrence cannot straddle a character absent from the needle. -/

/-- An occurrence of v inside a ++ c :: b with c not occurring in v
lies entirely inside a or entirely inside c :: b. -/
theorem isInfix_append_barrier {v a b : List Char} {c : Char}
    (hc : c ∉ v) (h : List.IsInfix v (a ++ c :: b)) :
    List.IsInfix v a ∨ List.IsInfix v (c :: b) := by
  obtain ⟨s, t, hst⟩ := h
  by_cases h1 : s.length + v.length ≤ a.length
  · left
    have hpre : (s ++ v) <+: a := by
      have hx1 : (s ++ v) <+: a ++ c :: b := ⟨t, by simpa [List.append_assoc] using hst⟩
      have hx2 : a <+: a ++ c :: b := ⟨c :: b, rfl⟩
      exact List.prefix_of_prefix_length_le hx1 hx2 (by simpa using h1)
    obtain ⟨r, hr⟩ := hpre
    exact ⟨s, r, by simpa [List.append_assoc] using hr⟩
  · by_cases h2 : a.length ≤ s.length
    · right
      have hpre : a <+: s := by
        have hx1 : a <+: a ++ c :: b := ⟨c :: b, rfl⟩
        have hx2 : s <+: a ++ c :: b := ⟨v ++ t, by simpa [List.append_assoc] using hst⟩
        exact List.prefix_of_prefix_length_le hx1 hx2 h2
      obtain ⟨s2, hs2⟩ := hpre
      refine ⟨s2, t, ?_⟩
      have := hst
      rw [← hs2] at this
      have h3 : a ++ (s2 ++ v ++ t) = a ++ c :: b := by
        simpa [List.append_assoc] using this
      exact List.append_cancel_left h3
    · exfalso
      push_neg at h1 h2
      have hsa : s <+: a := by
        have hx1 : s <+: a ++ c :: b := ⟨v ++ t, by simpa [List.append_assoc] using hst⟩
        have hx2 : a <+: a ++ c :: b := ⟨c :: b, rfl⟩
        exact List.prefix_of_prefix_length_le hx1 hx2 (by omega)
      obtain ⟨a2, ha2⟩ := hsa
      have hcancel : v ++ t = a2 ++ c :: b := by
        rw [← ha2] at hst
        have h5 : s ++ (v ++ t) = s ++ (a2 ++ c :: b) := by
          simpa [List.append_assoc] using hst
        exact List.append_cancel_left h5
      have ha2len : a2.length < v.length := by
        have : s.length + a2.length = a.length := by
          rw [← ha2]; simp
        omega
      have ha2pre : a2 <+: v := by
        have hx1 : a2 <+: v ++ t := ⟨c :: b, hcancel.symm⟩
        have hx2 : v <+: v ++ t := ⟨t, rfl⟩
        exact List.prefix_of_prefix_length_le hx1 hx2 (by omega)
      obtain ⟨v2, hv2⟩ := ha2pre
      have hv2len : 0 < v2.length := by
        have : a2.length + v2.length = v.length := by
          rw [← hv2]; simp
        omega
      cases hv2eq : v2 with
      | nil => rw [hv2eq] at hv2len; simp at hv2len
      | cons vh vt =>
        apply hc
        have hvv : vh :: (vt ++ t) = c :: b := by
          have := hcancel
          rw [← hv2, hv2eq] at this
          have h4 : a2 ++ (vh :: (vt ++ t)) = a2 ++ c :: b := by
            simpa [List.append_assoc] using this
          exact List.append_cancel_left h4
        have hvhc : vh = c := by
          injection hvv with h5 _
        rw [← hv2, hv2eq, ← hvhc]
        simp

/-- An occurrence of v inside c :: l with c not occurring in v lies
inside l. -/
theorem isInfix_cons_elim {v l : List Char} {c : Char} (hc : c ∉ v)
    (h : List.IsInfix v (c :: l)) : List.IsInfix v l := by
  obtain ⟨s, t, hst⟩ := h
  cases s with
  | nil =>
    cases v with
    | nil => exact List.nil_infix
    | cons vh vt =>
      exfalso
      apply hc
      have : vh :: (vt ++ t) = c :: l := by simpa using hst
      have hvh : vh = c := by injection this with h5 _
      rw [← hvh]
      simp
  | cons sh st2 =>
    have : sh :: (st2 ++ v ++ t) = c :: l := by simpa [List.append_assoc] using hst
    have h6 : st2 ++ v ++ t = l := by injection this with _ h6
    exact ⟨st2, t, h6⟩

/-! ## Containment facts about the authorize URL. -/

theorem str_data_append (a b : String) : (a ++ b).data = a.data ++ b.data := rfl

theorem containsStr_of_data_eq (hay pre mid post : String)
    (h : hay.data = pre.data ++ (mid.data ++ post.data)) : containsStr hay mid :=
  ⟨pre.data, post.data, by rw [List.append_assoc, ← h]⟩

/-- All advertised query parameters occur verbatim in the authorize URL;
the redirect_uri placeholder receives whatever string the caller put
there. -/
theorem authorizeUrlFormat_params (cid ruri ch st : String) :
    containsStr (authorizeUrlFormat cid ruri ch st) ("client_id=" ++ cid) ∧
    containsStr (authorizeUrlFormat cid ruri ch st) ("redirect_uri=" ++ ruri) ∧
    containsStr (authorizeUrlFormat cid ruri ch st) "response_type=code" ∧
    containsStr (authorizeUrlFormat cid ruri ch st) ("code_challenge=" ++ ch) ∧
    containsStr (authorizeUrlFormat cid ruri ch st) "code_challenge_method=S256" ∧
    containsStr (authorizeUrlFormat cid ruri ch st) "token_access_type=offline" ∧
    containsStr (authorizeUrlFormat cid ruri ch st) ("state=" ++ st) := by
  have s1 : ("https://www.dropbox.com/oauth2/authorize?client_id=" : String).data =
      ("https://www.dropbox.com/oauth2/authorize?" : String).data ++
      ("client_id=" : String).data := rfl
  have s2 : ("&redirect_uri=" : String).data =
      ("&" : String).data ++ ("redirect_uri=" : String).data := rfl
  have s3 : ("&response_type=code&code_challenge=" : String).data =
      ("&" : String).data ++ (("response_type=code" : String).data ++
        ("&code_challenge=" : String).data) := rfl
  have s4 : ("&code_challenge=" : String).data =
      ("&" : String).data ++ ("code_challenge=" : String).data := rfl
  have s5 : ("&code_challenge_method=S256&token_access_type=offline&state=" : String).data =
      ("&" : String).data ++ (("code_challenge_method=S256" : String).data ++
        (("&" : String).data ++ (("token_access_type=offline" : String).data ++
          (("&" : String).data ++ ("state=" : String).data)))) := rfl
  refine ⟨?_, ?_, ?_, ?_, ?_, ?_, ?_⟩
  · exact containsStr_of_data_eq _ "https://www.dropbox.com/oauth2/authorize?" _
      ("&redirect_uri=" ++ ruri ++ "&response_type=code&code_challenge=" ++ ch ++
       "&code_challenge_method=S256&token_access_type=offline&state=" ++ st)
      (by simp [authorizeUrlFormat, str_data_append, s1, List.append_assoc])
  · exact containsStr_of_data_eq _
      ("https://www.dropbox.com/oauth2/authorize?client_id=" ++ cid ++ "&") _
      ("&response_type=code&code_challenge=" ++ ch ++
       "&code_challenge_method=S256&token_access_type=offline&state=" ++ st)
      (by simp [authorizeUrlFormat, str_data_append, s2, List.append_assoc])
  · exact containsStr_of_data_eq _
      ("https://www.dropbox.com/oauth2/authorize?client_id=" ++ cid ++
       "&redirect_uri=" ++ ruri ++ "&") _
      ("&code_challenge=" ++ ch ++
       "&code_challenge_method=S256&token_access_type=offline&state=" ++ st)
      (by simp [authorizeUrlFormat, str_data_append, s3, List.append_assoc])
  · exact containsStr_of_data_eq _
      ("https://www.dropbox.com/oauth2/authorize?client_id=" ++ cid ++
       "&redirect_uri=" ++ ruri ++ "&response_type=code&") _
      ("&code_challenge_method=S256&token_access_type=offline&state=" ++ st)
      (by simp [authorizeUrlFormat, str_data_append, s3, s4, List.append_assoc])
  · exact containsStr_of_data_eq _
      ("https://www.dropbox.com/oauth2/authorize?client_id=" ++ cid ++
       "&redirect_uri=" ++ ruri ++ "&response_type=code&code_challenge=" ++ ch ++ "&") _
      ("&token_access_type=offline&state=" ++ st)
      (by simp [authorizeUrlFormat, str_data_append, s5, List.append_assoc])
  · exact containsStr_of_data_eq _
      ("https://www.dropbox.com/oauth2/authorize?client_id=" ++ cid ++
       "&redirect_uri=" ++ ruri ++ "&response_type=code&code_challenge=" ++ ch ++
       "&code_challenge_method=S256&") _
      ("&state=" ++ st)
      (by simp [authorizeUrlFormat, str_data_append, s5, List.append_assoc])
  · exact containsStr_of_data_eq _
      ("https://www.dropbox.com/oauth2/authorize?client_id=" ++ cid ++
       "&redirect_uri=" ++ ruri ++ "&response_type=code&code_challenge=" ++ ch ++
       "&code_challenge_method=S256&token_access_type=offline&") _
      ""
      (by simp [authorizeUrlFormat, str_data_append, s5, List.append_assoc])

/-- The raw verifier never occurs in the authorize URL built from its
challenge: a 64-character verifier free of ampersand and equals signs
(every generator output is 64 lowercase hex characters) that does not
occur in the caller-controlled client_id, redirect_uri or state cannot
occur anywhere in the URL, because every URL segment between such
separators is either one of those inputs, the 43-character challenge,
or a literal shorter than 64 characters. -/
theorem authorizeUrl_no_verifier (cid ruri st v : String)
    (hlen : v.length = 64) (hamp : '&' ∉ v.data) (heqc : '=' ∉ v.data)
    (hcid : ¬ containsStr cid v) (hruri : ¬ containsStr ruri v)
    (hst : ¬ containsStr st v) :
    ¬ containsStr (authorizeUrlFormat cid ruri (generate_code_challenge v) st) v := by
  intro h0
  have h : List.IsInfix v.data
      (authorizeUrlFormat cid ruri (generate_code_challenge v) st).data := h0
  have hlenV : v.data.length = 64 := hlen
  have hlong : ∀ l : List Char, l.length < 64 → List.IsInfix v.data l → False := by
    intro l hl hi
    have := List.IsInfix.length_le hi
    omega
  have l1e : ("https://www.dropbox.com/oauth2/authorize?client_id=" : String).data =
      ("https://www.dropbox.com/oauth2/authorize?client_id" : String).data ++ ['='] := rfl
  have e0 : (authorizeUrlFormat cid ruri (generate_code_challenge v) st).data =
      ("https://www.dropbox.com/oauth2/authorize?client_id" : String).data ++ '=' ::
      (cid.data ++ (("&redirect_uri=" : String).data ++ (ruri.data ++
        (("&response_type=code&code_challenge=" : String).data ++
          ((generate_code_challenge v).data ++
            (("&code_challenge_method=S256&token_access_type=offline&state=" : String).data ++
              st.data)))))) := by
    simp [authorizeUrlFormat, str_data_append, l1e, List.append_assoc]
  rw [e0] at h
  rcases isInfix_append_barrier heqc h with h1 | h1
  · exact hlong _ (by decide) h1
  have h2 := isInfix_cons_elim heqc h1
  have c2 : ∀ Z : List Char, ("&redirect_uri=" : String).data ++ Z =
      '&' :: (("redirect_uri=" : String).data ++ Z) := fun _ => rfl
  rw [c2] at h2
  rcases isInfix_append_barrier hamp h2 with h3 | h3
  · exact hcid h3
  have h4 := isInfix_cons_elim hamp h3
  have c3 : ∀ Z : List Char, ("redirect_uri=" : String).data ++ Z =
      ("redirect_uri" : String).data ++ '=' :: Z := fun _ => rfl
  rw [c3] at h4
  rcases isInfix_append_barrier heqc h4 with h5 | h5
  · exact hlong _ (by decide) h5
  have h6 := isInfix_cons_elim heqc h5
  have c4 : ∀ Z : List Char, ("&response_type=code&code_challenge=" : String).data ++ Z =
      '&' :: (("response_type=code&code_challenge=" : String).data ++ Z) := fun _ => rfl
  rw [c4] at h6
  rcases isInfix_append_barrier hamp h6 with h7 | h7
  · exact hruri h7
  have h8 := isInfix_cons_elim hamp h7
  have c5 : ∀ Z : List Char, ("response_type=code&code_challenge=" : String).data ++ Z =
      ("response_type=code&code_challenge" : String).data ++ '=' :: Z := fun _ => rfl
  rw [c5] at h8
  rcases isInfix_append_barrier heqc h8 with h9 | h9
  · exact hlong _ (by decide) h9
  have h10 := isInfix_cons_elim heqc h9
  have c6 : ∀ Z : List Char,
      ("&code_challenge_method=S256&token_access_type=offline&state=" : String).data ++ Z =
      '&' :: (("code_challenge_method=S256&token_access_type=offline&state=" : String).data ++ Z) :=
    fun _ => rfl
  rw [c6] at h10
  rcases isInfix_append_barrier hamp h10 with h11 | h11
  · have hc43 : (generate_code_challenge v).data.length = 43 :=
      generate_code_challenge_length v
    exact hlong _ (by omega) h11
  have h12 := isInfix_cons_elim hamp h11
  have c7 : ∀ Z : List Char,
      ("code_challenge_method=S256&token_access_type=offline&state=" : String).data ++ Z =
      ("code_challenge_method=S256&token_access_type=offline&state" : String).data ++ '=' :: Z :=
    fun _ => rfl
  rw [c7] at h12
  rcases isInfix_append_barrier heqc h12 with h13 | h13
  · exact hlong _ (by decide) h13
  have h14 := isInfix_cons_elim heqc h13
  exact hst h14

/-! ## Claims. -/

/-- C1 counterexample: after the slot is set to the verifier "v", the
read the exchange operations perform does not clear it: the first read
returns ok "v" but leaves the slot at some "v", and an immediate second
read again returns ok "v" rather than the empty-slot error the claim
(take semantics) requires. -/
theorem C1_counterexample :
    exchangeVerifierRead (verifierStore_set "v" none) = (Except.ok "v", some "v") ∧
    exchangeVerifierRead (exchangeVerifierRead (verifierStore_set "v" none)).2 =
      (Except.ok "v", some "v") ∧
    (exchangeVerifierRead (exchangeVerifierRead (verifierStore_set "v" none)).2).1 ≠
      Except.error "No code verifier found - start auth first" := by
  refine ⟨rfl, rfl, ?_⟩
  decide

/-- C1 amended: the read dropbox_exchange_code and
dropbox_exchange_code_android perform on the verifier slot clones the
stored value without clearing it: after set(v) a first read returns v
and leaves v stored, and an immediate second read returns v again; it
therefore differs from the spec take, which clears the slot.  The slot
is cleared only by the success branch of the exchange itself. -/
theorem C1_exchange_read_clones (v : String) (slot : Option String) :
    exchangeVerifierRead (verifierStore_set v slot) = (Except.ok v, some v) ∧
    exchangeVerifierRead (exchangeVerifierRead (verifierStore_set v slot)).2 =
      (Except.ok v, some v) ∧
    (specTake (verifierStore_set v slot)).2 = none :=
  ⟨rfl, rfl, rfl⟩

/-- C2 counterexample: with the slot initially empty, a timed-out run
of the desktop flow leaves the slot empty rather than holding the
generated verifier "v" the claim says is stored before the URL is
built; and with a stale value "w" stored, a fully successful run
leaves "w" in place rather than clearing the slot on exchange
success. -/
theorem C2_counterexample :
    dropbox_oauth_flow
        ⟨none, none, none, HttpOutcome.sendErr "x", fun _ => Except.error "x",
         fun _ => none⟩ "v" "st" "cid" none =
      (Except.error "OAuth timeout - no response received within 5 minutes", none) ∧
    (none : Option String) ≠ some "v" ∧
    dropbox_oauth_flow
        ⟨none, none, some (Except.ok "CODE"), HttpOutcome.respond true "body",
         fun _ => Except.ok sampleToken, fun _ => none⟩ "v" "st" "cid" (some "w") =
      (Except.ok sampleToken, some "w") ∧
    (some "w" : Option String) ≠ (none : Option String) := by
  refine ⟨rfl, ?_, rfl, ?_⟩ <;> decide

/-- C2 amended: dropbox_oauth_flow keeps the generated verifier in a
local variable of the flow; it never writes to and never clears the
process-wide verifier slot: for every environment, generated values
and initial slot, the flow returns with the slot exactly as it was, on
success, timeout and every failure alike. -/
theorem C2_flow_leaves_slot (env : FlowEnv) (verifier state client_id : String)
    (slot : Option String) :
    (dropbox_oauth_flow env verifier state client_id slot).2 = slot := by
  rcases env with ⟨bres, brres, cres, net, ptok, perr⟩
  cases bres with
  | some e => rfl
  | none =>
    cases brres with
    | some e => rfl
    | none =>
      cases cres with
      | none => rfl
      | some r =>
        cases r with
        | error e => rfl
        | ok code =>
          cases net with
          | sendErr e => rfl
          | readErr e => rfl
          | respond success body =>
            cases success with
            | false => rfl
            | true =>
              cases hp : ptok body with
              | ok tok => simp [dropbox_oauth_flow, hp]
              | error e => simp [dropbox_oauth_flow, hp]

/-- C3 counterexample: dropbox_start_auth inserts the caller-supplied
redirect_uri verbatim, not percent-encoded: at the concrete loopback
redirect URI the built URL does not contain the percent-encoded form
the claim requires. -/
theorem C3_counterexample :
    ¬ containsStr
        (dropbox_start_auth "v" "st" "cid" "http://localhost:8742/callback" none).1.url
        ("redirect_uri=" ++ urlencode "http://localhost:8742/callback") := by
  decide

/-- C3 amended: for every generated verifier and state and every
client_id and redirect_uri, the URL built by dropbox_start_auth
contains response_type=code, code_challenge with the challenge of the
verifier, code_challenge_method=S256, token_access_type=offline,
client_id, state, and the redirect_uri inserted verbatim (not
percent-encoded); the URL built by dropbox_get_auth_url contains the
same parameters with the percent-encoded fixed Android redirect URI;
and neither URL ever contains the raw verifier: a 64-character
verifier (every generator output is 64 lowercase hex characters) free
of ampersand and equals characters that does not occur inside the
caller-controlled client_id, redirect_uri or state occurs in neither
URL. -/
theorem C3_auth_url_parameters (verifier state client_id redirect_uri : String)
    (slot : Option String) :
    (containsStr (dropbox_start_auth verifier state client_id redirect_uri slot).1.url
        ("client_id=" ++ client_id) ∧
     containsStr (dropbox_start_auth verifier state client_id redirect_uri slot).1.url
        ("redirect_uri=" ++ redirect_uri) ∧
     containsStr (dropbox_start_auth verifier state client_id redirect_uri slot).1.url
        "response_type=code" ∧
     containsStr (dropbox_start_auth verifier state client_id redirect_uri slot).1.url
        ("code_challenge=" ++ generate_code_challenge verifier) ∧
     containsStr (dropbox_start_auth verifier state client_id redirect_uri slot).1.url
        "code_challenge_method=S256" ∧
     containsStr (dropbox_start_auth verifier state client_id redirect_uri slot).1.url
        "token_access_type=offline" ∧
     containsStr (dropbox_start_auth verifier state client_id redirect_uri slot).1.url
        ("state=" ++ state)) ∧
    (containsStr (dropbox_get_auth_url verifier state client_id slot).1.url
        ("client_id=" ++ client_id) ∧
     containsStr (dropbox_get_auth_url verifier state client_id slot).1.url
        ("redirect_uri=" ++ urlencode ANDROID_REDIRECT_URI) ∧
     containsStr (dropbox_get_auth_url verifier state client_id slot).1.url
        "response_type=code" ∧
     containsStr (dropbox_get_auth_url verifier state client_id slot).1.url
        ("code_challenge=" ++ generate_code_challenge verifier) ∧
     containsStr (dropbox_get_auth_url verifier state client_id slot).1.url
        "code_challenge_method=S256" ∧
     containsStr (dropbox_get_auth_url verifier state client_id slot).1.url
        "token_access_type=offline" ∧
     containsStr (dropbox_get_auth_url verifier state client_id slot).1.url
        ("state=" ++ state)) ∧
    (verifier.length = 64 → '&' ∉ verifier.data → '=' ∉ verifier.data →
     ¬ containsStr client_id verifier → ¬ containsStr redirect_uri verifier →
     ¬ containsStr state verifier →
     ¬ containsStr (dropbox_start_auth verifier state client_id redirect_uri slot).1.url
        verifier ∧
     ¬ containsStr (dropbox_get_auth_url verifier state client_id slot).1.url
        verifier) := by
  obtain ⟨p1, p2, p3, p4, p5, p6, p7⟩ :=
    authorizeUrlFormat_params client_id redirect_uri
      (generate_code_challenge verifier) state
  obtain ⟨q1, q2, q3, q4, q5, q6, q7⟩ :=
    authorizeUrlFormat_params client_id (urlencode ANDROID_REDIRECT_URI)
      (generate_code_challenge verifier) state
  refine ⟨⟨p1, p2, p3, p4, p5, p6, p7⟩, ⟨q1, q2, q3, q4, q5, q6, q7⟩, ?_⟩
  intro hlen hamp heqc hcid hruri hst
  constructor
  · exact authorizeUrl_no_verifier client_id redirect_uri state verifier
      hlen hamp heqc hcid hruri hst
  · apply authorizeUrl_no_verifier client_id (urlencode ANDROID_REDIRECT_URI)
      state verifier hlen hamp heqc hcid ?_ hst
    intro hx
    have hle := List.IsInfix.length_le hx
    have h36 : (urlencode ANDROID_REDIRECT_URI).data.length = 36 := by decide
    have h64 : verifier.data.length = 64 := hlen
    omega

/-- C3 witness: the amended statement at a concrete 64-character hex
verifier, client_id, redirect_uri and state. -/
theorem C3_witness :
    containsStr
      (dropbox_start_auth
        "0123456789abcdef0123456789abcdef0123456789abcdef0123456789abcdef"
        "st" "cid" "http://localhost:8742/callback" none).1.url
      ("redirect_uri=" ++ "http://localhost:8742/callback") ∧
    containsStr
      (dropbox_get_auth_url
        "0123456789abcdef0123456789abcdef0123456789abcdef0123456789abcdef"
        "st" "cid" none).1.url
      ("redirect_uri=" ++ urlencode ANDROID_REDIRECT_URI) ∧
    ¬ containsStr
      (dropbox_start_auth
        "0123456789abcdef0123456789abcdef0123456789abcdef0123456789abcdef"
        "st" "cid" "http://localhost:8742/callback" none).1.url
      "0123456789abcdef0123456789abcdef0123456789abcdef0123456789abcdef" ∧
    ¬ containsStr
      (dropbox_get_auth_url
        "0123456789abcdef0123456789abcdef0123456789abcdef0123456789abcdef"
        "st" "cid" none).1.url
      "0123456789abcdef0123456789abcdef0123456789abcdef0123456789abcdef" := by
  have h := C3_auth_url_parameters
    "0123456789abcdef0123456789abcdef0123456789abcdef0123456789abcdef"
    "st" "cid" "http://localhost:8742/callback" none
  have hv := h.2.2 (by decide) (by decide) (by decide) (by decide) (by decide)
    (by decide)
  exact ⟨h.1.2.1, h.2.1.2.1, hv.1, hv.2⟩

/-- C4: a /callback request whose query carries a state value that
differs from the expected state and no error parameter does not
terminate the listener: the iteration ends silently (no response is
written) and the listener goes on waiting for the next connection. -/
theorem C4_state_mismatch_continues (expected_state request : String)
    (code : Option String) (s : String)
    (h : requestParams request = some (code, some s, none))
    (hs : s ≠ expected_state) (rest : List Conn) :
    processConnection expected_state request = CallbackStep.again none ∧
    wait_for_oauth_callback expected_state (Conn.req request :: rest) =
      wait_for_oauth_callback expected_state rest := by
  have hp : processConnection expected_state request = CallbackStep.again none := by
    unfold processConnection
    rw [h]
    simp [stateMismatch, hs]
  exact ⟨hp, by simp [wait_for_oauth_callback, hp]⟩

/-- C4 witness: the spec example, a callback carrying state S1 against
expected state S2. -/
theorem C4_witness :
    processConnection "S2" "GET /callback?code=ABC&state=S1 HTTP/1.1\r\n\r\n" =
      CallbackStep.again none ∧
    wait_for_oauth_callback "S2"
        (Conn.req "GET /callback?code=ABC&state=S1 HTTP/1.1\r\n\r\n" :: []) =
      wait_for_oauth_callback "S2" [] :=
  C4_state_mismatch_continues "S2" "GET /callback?code=ABC&state=S1 HTTP/1.1\r\n\r\n"
    (some "ABC") "S1" (by decide) (by decide) []

/-- C5: a /callback request whose query carries an error parameter
makes the listener write the interpolated HTML error page and
terminate with an error result that contains the error string. -/
theorem C5_error_terminates (expected_state request err : String)
    (code state : Option String)
    (h : requestParams request = some (code, state, some err)) :
    processConnection expected_state request =
      CallbackStep.done (httpHtmlResponse (errorHtml err))
        (Except.error ("OAuth error: " ++ err)) ∧
    containsStr ("OAuth error: " ++ err) err := by
  constructor
  · unfold processConnection
    rw [h]
  · exact containsStr_of_data_eq _ "OAuth error: " _ "" (by simp)

/-- C5 witness: the spec example, error access_denied. -/
theorem C5_witness :
    processConnection "S1" "GET /callback?error=access_denied HTTP/1.1\r\n\r\n" =
      CallbackStep.done (httpHtmlResponse (errorHtml "access_denied"))
        (Except.error ("OAuth error: " ++ "access_denied")) ∧
    containsStr ("OAuth error: " ++ "access_denied") "access_denied" :=
  C5_error_terminates "S1" "GET /callback?error=access_denied HTTP/1.1\r\n\r\n"
    "access_denied" none none (by decide)

/-- C6: a /callback request whose query carries code C together with
the expected state, or with no state parameter at all, makes the
listener write the static HTML success page and terminate returning
exactly C. -/
theorem C6_code_success (expected_state request c : String)
    (stateOpt : Option String)
    (h : requestParams request = some (some c, stateOpt, none))
    (hst : stateOpt = none ∨ stateOpt = some expected_state) :
    processConnection expected_state request =
      CallbackStep.done (httpHtmlResponse successHtml) (Except.ok c) := by
  unfold processConnection
  rw [h]
  rcases hst with rfl | rfl <;> simp [stateMismatch]

/-- C6 witness: the spec example, code ABC with matching state S1. -/
theorem C6_witness :
    processConnection "S1" "GET /callback?code=ABC&state=S1 HTTP/1.1\r\n\r\n" =
      CallbackStep.done (httpHtmlResponse successHtml) (Except.ok "ABC") :=
  C6_code_success "S1" "GET /callback?code=ABC&state=S1 HTTP/1.1\r\n\r\n" "ABC"
    (some "S1") (by decide) (Or.inr rfl)

/-- C7: an exchange that returns an error, in either the desktop or
the Android variant and for any transport or parse outcome, leaves the
stored verifier exactly as it was: a stale verifier persists across
failed attempts. -/
theorem C7_exchange_error_keeps_slot (client_id code redirect_uri : String)
    (net : HttpOutcome)
    (parseTok : String → Except String DropboxTokenResponse)
    (parseErr : String → Option DropboxErrorResponse)
    (slot : Option String) (e : String) :
    ((dropbox_exchange_code client_id code redirect_uri net parseTok parseErr
        slot).result = Except.error e →
      (dropbox_exchange_code client_id code redirect_uri net parseTok parseErr
        slot).slot = slot) ∧
    ((dropbox_exchange_code_android client_id code net parseTok parseErr
        slot).result = Except.error e →
      (dropbox_exchange_code_android client_id code net parseTok parseErr
        slot).slot = slot) := by
  have main : ∀ ruri : String,
      (dropbox_exchange_code client_id code ruri net parseTok parseErr
        slot).result = Except.error e →
      (dropbox_exchange_code client_id code ruri net parseTok parseErr
        slot).slot = slot := by
    intro ruri hr
    cases slot with
    | none => rfl
    | some v =>
      cases net with
      | sendErr e2 => rfl
      | readErr e2 => rfl
      | respond success body =>
        cases success with
        | false => rfl
        | true =>
          cases hp : parseTok body with
          | error e2 => simp [dropbox_exchange_code, exchangeVerifierRead, hp]
          | ok tok =>
            exfalso
            simp [dropbox_exchange_code, exchangeVerifierRead, hp] at hr
  exact ⟨main redirect_uri, main ANDROID_REDIRECT_URI⟩

/-- C7 witness: a transport failure leaves the stored verifier v in
place, in both variants. -/
theorem C7_witness :
    (dropbox_exchange_code "cid" "code" "http://localhost:8742/callback"
        (HttpOutcome.sendErr "connection refused") (fun _ => Except.error "p")
        (fun _ => none) (some "v")).slot = some "v" ∧
    (dropbox_exchange_code_android "cid" "code"
        (HttpOutcome.sendErr "connection refused") (fun _ => Except.error "p")
        (fun _ => none) (some "v")).slot = some "v" := by
  have h := C7_exchange_error_keeps_slot "cid" "code"
    "http://localhost:8742/callback" (HttpOutcome.sendErr "connection refused")
    (fun _ => Except.error "p") (fun _ => none) (some "v")
    ("HTTP error: " ++ "connection refused")
  exact ⟨h.1 rfl, h.2 rfl⟩

/-- C8: called with the verifier slot empty, both exchange commands
fail with the no-stored-verifier configuration error, leave the slot
empty, and never issue the token request (the submitted form is
none). -/
theorem C8_exchange_requires_verifier (client_id code redirect_uri : String)
    (net : HttpOutcome)
    (parseTok : String → Except String DropboxTokenResponse)
    (parseErr : String → Option DropboxErrorResponse) :
    dropbox_exchange_code client_id code redirect_uri net parseTok parseErr none =
      ⟨Except.error "No code verifier found - start auth first", none, none⟩ ∧
    dropbox_exchange_code_android client_id code net parseTok parseErr none =
      ⟨Except.error "No code verifier found - start auth first", none, none⟩ :=
  ⟨rfl, rfl⟩

/-- C9: the error check precedes the state check: a /callback request
carrying both an error parameter and a state different from the
expected one still terminates with the provider error; state is never
validated on the error path. -/
theorem C9_error_precedes_state_check (expected_state request err s : String)
    (code : Option String)
    (h : requestParams request = some (code, some s, some err))
    (_hs : s ≠ expected_state) :
    processConnection expected_state request =
      CallbackStep.done (httpHtmlResponse (errorHtml err))
        (Except.error ("OAuth error: " ++ err)) := by
  unfold processConnection
  rw [h]

/-- C9 witness: error access_denied with mismatched state WRONG against
expected state S1 still terminates with the error. -/
theorem C9_witness :
    processConnection "S1"
        "GET /callback?error=access_denied&state=WRONG HTTP/1.1\r\n\r\n" =
      CallbackStep.done (httpHtmlResponse (errorHtml "access_denied"))
        (Except.error ("OAuth error: " ++ "access_denied")) :=
  C9_error_precedes_state_check "S1"
    "GET /callback?error=access_denied&state=WRONG HTTP/1.1\r\n\r\n"
    "access_denied" "WRONG" none (by decide) (by decide)

/-- C10: generate_code_challenge is a deterministic pure function of
its input: for every verifier string v it returns the
base64url-without-padding encoding of the SHA-256 hash of the UTF-8
bytes of v, and two calls with equal input return equal output.  The
hash and encoder embeddings are grounded by the known-answer tests
sha256_kat_abc and generate_code_challenge_rfc7636. -/
theorem C10_generate_code_challenge_pure (v : String) :
    generate_code_challenge v =
      String.mk (b64urlEncode (sha256Bytes (strBytes v))) ∧
    ∀ w : String, w = v → generate_code_challenge w = generate_code_challenge v :=
  ⟨rfl, fun _ h => by rw [h]⟩

/-- C10 witness: the RFC 7636 example verifier. -/
theorem C10_witness :
    generate_code_challenge "dBjftJeZ4CVP-mB92K27uhbUJU1p1r_wW1gFWFOEjXk" =
      String.mk (b64urlEncode (sha256Bytes
        (strBytes "dBjftJeZ4CVP-mB92K27uhbUJU1p1r_wW1gFWFOEjXk"))) ∧
    generate_code_challenge "dBjftJeZ4CVP-mB92K27uhbUJU1p1r_wW1gFWFOEjXk" =
      generate_code_challenge "dBjftJeZ4CVP-mB92K27uhbUJU1p1r_wW1gFWFOEjXk" := by
  have h := C10_generate_code_challenge_pure
    "dBjftJeZ4CVP-mB92K27uhbUJU1p1r_wW1gFWFOEjXk"
  exact ⟨h.1, h.2 _ rfl⟩

end Ynab4
